import Mathlib

/-!
Shallow embedding of riegeli's chunk-encoding compression configuration:
`src/riegeli/chunk_encoding/types.h` (the frozen `ChunkType` and
`CompressionType` enums) and `src/riegeli/chunk_encoding/compressor_options.h`
(the `CompressorOptions` value object, its validated setters, the window-log
translation methods and the `FromString` options parser).

Modelling conventions:
- machine integers (`int`, `uint8_t`) become `Int`/`Nat`; all values involved
  are tiny, far from any overflow, so no wraparound modelling is needed;
- a `RIEGELI_ASSERT` precondition failure (fatal, process-terminating) is
  modelled by the guarded operation returning `none`; the `some` branch is the
  normal return;
- `absl::Status` results of `FromString` become `Except String`, `.ok` for
  `status.ok()` and `.error msg` for a failed status with message `msg`;
- `absl::optional<int>` becomes `Option Int`.

The implementation file `compressor_options.cc` (bodies of `FromString`,
`brotli_window_log`, `zstd_window_log`) and the headers defining the numeric
bound constants (`brotli_writer.h`, `zstd_writer.h`) are not under `src/`;
those parts are modelled from the spec, and each such definition says so in
its doc comment.
-/

/-- Chunk tags frozen in the file format, from
`src/riegeli/chunk_encoding/types.h` (`enum class ChunkType : uint8_t`). -/
inductive ChunkType
  | kFileSignature
  | kPadding
  | kSimple
  | kTransposed
deriving DecidableEq

/-- The `uint8_t` code of each `ChunkType` enumerator as written in
`types.h`: `kFileSignature = 's'`, `kPadding = 'p'`, `kSimple = 'r'`,
`kTransposed = 't'`. -/
def ChunkType.code : ChunkType → Nat
  | .kFileSignature => 115
  | .kPadding => 112
  | .kSimple => 114
  | .kTransposed => 116

/-- Compression tags frozen in the file format. `kNone`, `kBrotli` and
`kZstd` are the enumerators of `enum class CompressionType : uint8_t` in
`src/riegeli/chunk_encoding/types.h`. `kSnappy` is Modelled from the spec:
`types.h` under `src/` omits it, yet `CompressorOptions::set_snappy()` in
`src/riegeli/chunk_encoding/compressor_options.h` references
`CompressionType::kSnappy`, and the spec lists `Snappy` as a variant of the
algorithm enumeration. -/
inductive CompressionType
  | kNone
  | kBrotli
  | kZstd
  | kSnappy
deriving DecidableEq

/-- The `uint8_t` code of each `CompressionType` enumerator. The first three
are written in `types.h` (`kNone = 0`, `kBrotli = 'b'`, `kZstd = 'z'`); the
code of `kSnappy` is Modelled from the spec, which pins no particular number
for it (none of the claims depends on its value). -/
def CompressionType.code : CompressionType → Nat
  | .kNone => 0
  | .kBrotli => 98
  | .kZstd => 122
  | .kSnappy => 115

/-- The enumerators that `enum class CompressionType` declares in
`src/riegeli/chunk_encoding/types.h`, transcribed in declaration order. -/
def typesCompressionTypeEnumerators : List String :=
  ["kNone", "kBrotli", "kZstd"]

/-- The `CompressionType` enumerators that the setters of
`src/riegeli/chunk_encoding/compressor_options.h` assign to
`compression_type_`: `set_uncompressed` uses `kNone`, `set_brotli` uses
`kBrotli`, `set_zstd` uses `kZstd`, and `set_snappy` uses `kSnappy`. -/
def compressorOptionsReferencedEnumerators : List String :=
  ["kNone", "kBrotli", "kZstd", "kSnappy"]

/-- Modelled from the spec: `kMinBrotli` in `compressor_options.h` equals
`BrotliWriterBase::Options::kMinCompressionLevel`, whose defining header is
not under `src/`; the spec and the src doc comment give 0. -/
def CompressorOptions.kMinBrotli : Int := 0

/-- Modelled from the spec: `kMaxBrotli` equals
`BrotliWriterBase::Options::kMaxCompressionLevel`; the spec and the src doc
comment give 11. -/
def CompressorOptions.kMaxBrotli : Int := 11

/-- Modelled from the spec: `kDefaultBrotli` equals
`BrotliWriterBase::Options::kDefaultCompressionLevel`; the spec and the src
doc comment give 6. -/
def CompressorOptions.kDefaultBrotli : Int := 6

/-- Modelled from the spec: `kMinZstd` equals
`ZstdWriterBase::Options::kMinCompressionLevel`; the spec and the src doc
comment give -131072. -/
def CompressorOptions.kMinZstd : Int := -131072

/-- Modelled from the spec: `kMaxZstd` equals
`ZstdWriterBase::Options::kMaxCompressionLevel`; the spec and the src doc
comment give 22. -/
def CompressorOptions.kMaxZstd : Int := 22

/-- Modelled from the spec: `kDefaultZstd` equals
`ZstdWriterBase::Options::kDefaultCompressionLevel`; the spec and the src doc
comment give 3. -/
def CompressorOptions.kDefaultZstd : Int := 3

/-- Modelled from the spec: `kMinWindowLog = SignedMin(Brotli kMinWindowLog,
Zstd kMinWindowLog)`; both are 10 per the spec and the src doc comment. -/
def CompressorOptions.kMinWindowLog : Int := 10

/-- Modelled from the spec: `kMaxWindowLog = SignedMax(Brotli kMaxWindowLog,
Zstd kMaxWindowLog)`; 30 and 31 (64-bit build) per the spec and the src doc
comment, so 31. -/
def CompressorOptions.kMaxWindowLog : Int := 31

/-- Modelled from the spec: the fixed Brotli backend default window log
(`BrotliWriterBase::Options::kDefaultWindowLog`), 22 per the spec and the
src doc comment on `window_log`. -/
def kBrotliDefaultWindowLog : Int := 22

/-- The `CompressorOptions` value object of
`src/riegeli/chunk_encoding/compressor_options.h`, with the member defaults
of its private section: `compression_type_ = kBrotli`,
`compression_level_ = kDefaultBrotli`, `window_log_ = absl::nullopt`. -/
structure CompressorOptions where
  compression_type : CompressionType := CompressionType.kBrotli
  compression_level : Int := CompressorOptions.kDefaultBrotli
  window_log : Option Int := none
deriving DecidableEq

/-- `CompressorOptions::set_uncompressed()`: sets `compression_type_` to
`kNone` and `compression_level_` to 0; no assertion. -/
def CompressorOptions.set_uncompressed (o : CompressorOptions) :
    CompressorOptions :=
  { o with compression_type := CompressionType.kNone, compression_level := 0 }

/-- `CompressorOptions::set_brotli(compression_level)`: asserts
`kMinBrotli <= compression_level <= kMaxBrotli` (fatal on violation,
modelled as `none`), then sets `compression_type_` to `kBrotli` and
`compression_level_` to the argument. -/
def CompressorOptions.set_brotli (o : CompressorOptions)
    (compression_level : Int) : Option CompressorOptions :=
  if CompressorOptions.kMinBrotli ≤ compression_level ∧
      compression_level ≤ CompressorOptions.kMaxBrotli then
    some { o with compression_type := CompressionType.kBrotli,
                  compression_level := compression_level }
  else none

/-- `CompressorOptions::set_zstd(compression_level)`: asserts
`kMinZstd <= compression_level <= kMaxZstd` (fatal on violation, modelled as
`none`), then sets `compression_type_` to `kZstd` and `compression_level_`
to the argument. -/
def CompressorOptions.set_zstd (o : CompressorOptions)
    (compression_level : Int) : Option CompressorOptions :=
  if CompressorOptions.kMinZstd ≤ compression_level ∧
      compression_level ≤ CompressorOptions.kMaxZstd then
    some { o with compression_type := CompressionType.kZstd,
                  compression_level := compression_level }
  else none

/-- `CompressorOptions::set_snappy()`: sets `compression_type_` to `kSnappy`
and `compression_level_` to 0; no assertion. -/
def CompressorOptions.set_snappy (o : CompressorOptions) : CompressorOptions :=
  { o with compression_type := CompressionType.kSnappy,
           compression_level := 0 }

/-- `CompressorOptions::set_window_log(window_log)`: when the argument is
present it asserts `kMinWindowLog <= *window_log <= kMaxWindowLog` (fatal on
violation, modelled as `none`), then stores the argument in `window_log_`.
The source performs no check involving `compression_type_`. -/
def CompressorOptions.set_window_log (o : CompressorOptions)
    (window_log : Option Int) : Option CompressorOptions :=
  match window_log with
  | none => some { o with window_log := none }
  | some w =>
    if CompressorOptions.kMinWindowLog ≤ w ∧
        w ≤ CompressorOptions.kMaxWindowLog then
      some { o with window_log := some w }
    else none

/-- Modelled from the spec: the body of
`CompressorOptions::brotli_window_log()` lives in `compressor_options.cc`,
which is not under `src/`. Per the spec it is defined only when
`compression_type() == kBrotli` (precondition failure otherwise, modelled as
`none`) and returns the configured window log, or the fixed backend default
22 when unset. -/
def CompressorOptions.brotli_window_log (o : CompressorOptions) : Option Int :=
  if o.compression_type = CompressionType.kBrotli then
    some (o.window_log.getD kBrotliDefaultWindowLog)
  else none

/-- Modelled from the spec: the body of
`CompressorOptions::zstd_window_log()` lives in `compressor_options.cc`,
which is not under `src/`. Per the spec it is defined only when
`compression_type() == kZstd` (precondition failure otherwise, modelled as
the outer `none`) and returns `window_log()` verbatim, still optional:
`some none` is the unset / auto-derive signal. -/
def CompressorOptions.zstd_window_log (o : CompressorOptions) :
    Option (Option Int) :=
  if o.compression_type = CompressionType.kZstd then some o.window_log
  else none

/-- Splits a character list at every occurrence of `c`, keeping empty
pieces, as `absl::StrSplit` / `String.splitOn` do: the number of pieces is
one more than the number of separators. -/
def splitOnChar (c : Char) : List Char → List (List Char)
  | [] => [[]]
  | x :: xs =>
    let r := splitOnChar c xs
    if x = c then [] :: r
    else
      match r with
      | [] => [[x]]
      | y :: ys => (x :: y) :: ys

/-- Whether `c` is a decimal digit. -/
def isDigitChar (c : Char) : Bool := 48 ≤ c.toNat && c.toNat ≤ 57

/-- Accumulates decimal digits into `acc`; fails on any non-digit. -/
def parseNatAux (acc : Nat) : List Char → Option Nat
  | [] => some acc
  | c :: cs =>
    if isDigitChar c then parseNatAux (acc * 10 + (c.toNat - 48)) cs
    else none

/-- Parses an optionally `-`-signed decimal integer; fails on an empty
string, a bare sign, or any non-digit character. Models the strict integer
parsing used by `FromString` on level and window-log values. -/
def parseIntChars : List Char → Option Int
  | [] => none
  | '-' :: cs =>
    match cs with
    | [] => none
    | _ :: _ => (parseNatAux 0 cs).map (fun n => -(n : Int))
  | cs => (parseNatAux 0 cs).map (fun n => (n : Int))

/-- One mutation of a `CompressorOptions` denoted by a non-empty option
segment, before the setter preconditions are checked. -/
inductive Mutation
  | uncompressed
  | brotli (level : Int)
  | zstd (level : Int)
  | snappy
  | windowLog (w : Option Int)
deriving DecidableEq

/-- Modelled from the spec: recognises one non-empty option segment of the
grammar documented on `FromString` in `compressor_options.h` (the
implementation is not under `src/`): `uncompressed`, `brotli[:level]`,
`zstd[:level]`, `snappy`, `window_log:auto`, `window_log:n`. Omitted levels
take the keyword's default; `none` is an unknown keyword or a value that is
not a parseable integer (or `auto` for `window_log`). -/
def parseSegment (s : String) : Option Mutation :=
  match (splitOnChar ':' s.toList).map String.mk with
  | ["uncompressed"] => some Mutation.uncompressed
  | ["brotli"] => some (Mutation.brotli CompressorOptions.kDefaultBrotli)
  | ["brotli", v] => (parseIntChars v.toList).map Mutation.brotli
  | ["zstd"] => some (Mutation.zstd CompressorOptions.kDefaultZstd)
  | ["zstd", v] => (parseIntChars v.toList).map Mutation.zstd
  | ["snappy"] => some Mutation.snappy
  | ["window_log", v] =>
    if v = "auto" then some (Mutation.windowLog none)
    else (parseIntChars v.toList).map (fun n => Mutation.windowLog (some n))
  | _ => none

/-- Applies one recognised mutation through the corresponding setter;
`none` exactly when the setter's range check fails (level or window log out
of the keyword's declared bound). -/
def applyMutation (o : CompressorOptions) : Mutation → Option CompressorOptions
  | .uncompressed => some o.set_uncompressed
  | .brotli level => o.set_brotli level
  | .zstd level => o.set_zstd level
  | .snappy => some o.set_snappy
  | .windowLog w => o.set_window_log w

/-- Whether a recognised mutation passes its range check; independent of the
options value it is applied to, since the setters' assertions only inspect
their argument. -/
def mutationOk : Mutation → Bool
  | .brotli level =>
    decide (CompressorOptions.kMinBrotli ≤ level ∧
            level ≤ CompressorOptions.kMaxBrotli)
  | .zstd level =>
    decide (CompressorOptions.kMinZstd ≤ level ∧
            level ≤ CompressorOptions.kMaxZstd)
  | .windowLog (some w) =>
    decide (CompressorOptions.kMinWindowLog ≤ w ∧
            w ≤ CompressorOptions.kMaxWindowLog)
  | _ => true

/-- The parse error message for an offending segment; it carries the
offending token verbatim. -/
def errMsg (s : String) : String := "Failed to parse option: " ++ s

/-- Modelled from the spec: processes one non-empty option segment, as
`FromString` does: an unrecognised segment, a garbled number, or an
out-of-range value yields a recoverable error naming the segment; otherwise
the segment's mutation is applied through the corresponding setter. -/
def applyOption (o : CompressorOptions) (s : String) :
    Except String CompressorOptions :=
  match parseSegment s with
  | none => Except.error (errMsg s)
  | some m =>
    match applyMutation o m with
    | some r => Except.ok r
    | none => Except.error (errMsg s)

/-- Modelled from the spec: folds the comma-split segments over an options
value in left-to-right order, silently skipping empty segments, stopping at
the first failing segment. -/
def applyOptions (o : CompressorOptions) :
    List String → Except String CompressorOptions
  | [] => Except.ok o
  | s :: rest =>
    if s = "" then applyOptions o rest
    else
      match applyOption o s with
      | Except.ok r => applyOptions r rest
      | Except.error m => Except.error m

/-- The comma-split of the option text, empty pieces included. -/
def optionSegments (text : String) : List String :=
  (splitOnChar ',' text.toList).map String.mk

/-- Modelled from the spec: `CompressorOptions::FromString(text)` — the
implementation (`compressor_options.cc`) is not under `src/`. Splits `text`
on commas, skips empty segments, and applies the non-empty segments in
left-to-right order to a default-constructed value; returns an ok status
with the fully mutated value, or the first segment's recoverable error. -/
def CompressorOptions.FromString (text : String) :
    Except String CompressorOptions :=
  applyOptions {} (optionSegments text)

/-- Whether one segment conforms to the grammar: empty segments aside, the
keyword is known and any explicit level or window-log value parses and lies
in the keyword's declared bound. -/
def validOption (s : String) : Bool :=
  match parseSegment s with
  | none => false
  | some m => mutationOk m

/-- Whether the whole option text conforms to the grammar. -/
def validOptionsText (text : String) : Bool :=
  (optionSegments text).all (fun s => s == "" || validOption s)

example : optionSegments "a,,b" = ["a", "", "b"] := rfl
example : optionSegments "" = [""] := rfl
example : parseIntChars "-45".toList = some (-45) := rfl
example : parseIntChars "".toList = none := rfl
example : parseIntChars "4x".toList = none := rfl
example : parseSegment "brotli:7" = some (Mutation.brotli 7) := rfl
example : parseSegment "window_log:auto" = some (Mutation.windowLog none) := rfl
example : parseSegment "window_log" = none := rfl
example :
    CompressorOptions.FromString "brotli,zstd" =
      Except.ok { compression_type := CompressionType.kZstd,
                  compression_level := 3, window_log := none } := rfl
example :
    CompressorOptions.FromString "zstd:5,window_log:auto" =
      Except.ok { compression_type := CompressionType.kZstd,
                  compression_level := 5, window_log := none } := rfl
example : CompressorOptions.FromString "" = Except.ok {} := rfl
example :
    CompressorOptions.FromString "brotli:99" =
      Except.error (errMsg "brotli:99") := rfl
example : validOptionsText "zstd:5,window_log:auto" = true := rfl
example : validOptionsText "brotli:99" = false := rfl

theorem applyMutation_isSome (o : CompressorOptions) (m : Mutation) :
    (applyMutation o m).isSome = mutationOk m := by
  cases m with
  | uncompressed => rfl
  | brotli level =>
    simp only [applyMutation, mutationOk, CompressorOptions.set_brotli]
    split <;> simp_all
  | zstd level =>
    simp only [applyMutation, mutationOk, CompressorOptions.set_zstd]
    split <;> simp_all
  | snappy => rfl
  | windowLog w =>
    cases w with
    | none => rfl
    | some v =>
      simp only [applyMutation, mutationOk, CompressorOptions.set_window_log]
      split <;> simp_all

theorem applyOption_ok (o : CompressorOptions) (s : String)
    (h : validOption s = true) : ∃ r, applyOption o s = Except.ok r := by
  cases hp : parseSegment s with
  | none => exact absurd (by simpa only [validOption, hp] using h) (by decide)
  | some m =>
    simp only [validOption, hp] at h
    have hs := applyMutation_isSome o m
    rw [h] at hs
    obtain ⟨r, hr⟩ := Option.isSome_iff_exists.mp hs
    exact ⟨r, by simp [applyOption, hp, hr]⟩

theorem applyOption_error (o : CompressorOptions) (s : String)
    (h : validOption s = false) : applyOption o s = Except.error (errMsg s) := by
  cases hp : parseSegment s with
  | none => simp [applyOption, hp]
  | some m =>
    simp only [validOption, hp] at h
    have hs := applyMutation_isSome o m
    cases ha : applyMutation o m with
    | some r => rw [ha, h] at hs; simp at hs
    | none => simp [applyOption, hp, ha]

theorem applyOptions_ok_of_valid (l : List String)
    (h : ∀ s ∈ l, s = "" ∨ validOption s = true) (o : CompressorOptions) :
    ∃ r, applyOptions o l = Except.ok r := by
  induction l generalizing o with
  | nil => exact ⟨o, rfl⟩
  | cons s rest ih =>
    by_cases hs : s = ""
    · subst hs
      simp only [applyOptions, if_pos rfl]
      exact ih (fun t ht => h t (List.mem_cons_of_mem _ ht)) o
    · have hv : validOption s = true := by
        rcases h s (List.mem_cons_self s rest) with h1 | h1
        · exact absurd h1 hs
        · exact h1
      obtain ⟨r, hr⟩ := applyOption_ok o s hv
      obtain ⟨r2, hr2⟩ := ih (fun t ht => h t (List.mem_cons_of_mem _ ht)) r
      refine ⟨r2, ?_⟩
      simp only [applyOptions]
      rw [if_neg hs, hr]
      exact hr2

theorem applyOptions_error_of_invalid (l : List String)
    (h : ∃ s, s ∈ l ∧ s ≠ "" ∧ validOption s = false) (o : CompressorOptions) :
    ∃ s, s ∈ l ∧ s ≠ "" ∧ validOption s = false ∧
      applyOptions o l = Except.error (errMsg s) := by
  induction l generalizing o with
  | nil =>
    obtain ⟨s, hmem, _⟩ := h
    cases hmem
  | cons t rest ih =>
    by_cases ht : t = ""
    · subst ht
      have h' : ∃ s, s ∈ rest ∧ s ≠ "" ∧ validOption s = false := by
        obtain ⟨s, hmem, hne, hval⟩ := h
        rcases List.mem_cons.mp hmem with heq | hm
        · exact absurd heq hne
        · exact ⟨s, hm, hne, hval⟩
      obtain ⟨s, hm, hne, hval, happ⟩ := ih h' o
      refine ⟨s, List.mem_cons_of_mem _ hm, hne, hval, ?_⟩
      simp only [applyOptions, if_pos rfl]
      exact happ
    · by_cases hv : validOption t = true
      · obtain ⟨r, hr⟩ := applyOption_ok o t hv
        have h' : ∃ s, s ∈ rest ∧ s ≠ "" ∧ validOption s = false := by
          obtain ⟨s, hmem, hne, hval⟩ := h
          rcases List.mem_cons.mp hmem with heq | hm
          · subst heq; rw [hv] at hval; cases hval
          · exact ⟨s, hm, hne, hval⟩
        obtain ⟨s, hm, hne, hval, happ⟩ := ih h' r
        refine ⟨s, List.mem_cons_of_mem _ hm, hne, hval, ?_⟩
        simp only [applyOptions]
        rw [if_neg ht, hr]
        exact happ
      · have hv' : validOption t = false := by
          cases hb : validOption t with
          | true => exact absurd hb hv
          | false => rfl
        refine ⟨t, List.mem_cons_self t rest, ht, hv', ?_⟩
        simp only [applyOptions]
        rw [if_neg ht, applyOption_error o t hv']

/-- Claim C2: the numeric codes of the two frozen enums equal the
historically fixed byte values: `ChunkType` maps `kFileSignature`,
`kPadding`, `kSimple`, `kTransposed` to the bytes of the characters s, p, r,
t, and `CompressionType` maps `kNone` to 0, `kBrotli` to the byte of b and
`kZstd` to the byte of z. -/
theorem chunkType_compressionType_codes_frozen :
    ChunkType.code ChunkType.kFileSignature = Char.toNat 's' ∧
    ChunkType.code ChunkType.kPadding = Char.toNat 'p' ∧
    ChunkType.code ChunkType.kSimple = Char.toNat 'r' ∧
    ChunkType.code ChunkType.kTransposed = Char.toNat 't' ∧
    CompressionType.code CompressionType.kNone = 0 ∧
    CompressionType.code CompressionType.kBrotli = Char.toNat 'b' ∧
    CompressionType.code CompressionType.kZstd = Char.toNat 'z' :=
  ⟨rfl, rfl, rfl, rfl, rfl, rfl, rfl⟩

/-- Claim C3, evidence of the divergence: `enum class CompressionType` in
`src/riegeli/chunk_encoding/types.h` declares exactly three enumerators and
no `kSnappy`, while the setters of
`src/riegeli/chunk_encoding/compressor_options.h` reference `kSnappy`, so
the four-variant enumeration the claim (and the spec) states is not what
`types.h` declares. -/
theorem compressionType_enumerators_lack_snappy :
    typesCompressionTypeEnumerators.length = 3 ∧
    "kSnappy" ∉ typesCompressionTypeEnumerators ∧
    "kSnappy" ∈ compressorOptionsReferencedEnumerators :=
  ⟨rfl, by decide, by decide⟩

/-- Claim C1: `FromString` splits the input on commas, silently skips empty
segments, and applies the non-empty segments left-to-right, each through the
corresponding setter, so later segments overwrite earlier ones per field:
`"brotli,zstd"` yields Zstd at the Zstd default level, and
`"zstd:5,window_log:auto"` yields Zstd, level 5, window log unset. -/
theorem fromString_applies_segments_in_order :
    (∀ text : String,
      CompressorOptions.FromString text =
        applyOptions {} (optionSegments text)) ∧
    (∀ (o : CompressorOptions) (l : List String),
      applyOptions o ("" :: l) = applyOptions o l) ∧
    (∀ (o r : CompressorOptions) (s : String) (l : List String),
      s ≠ "" → applyOption o s = Except.ok r →
      applyOptions o (s :: l) = applyOptions r l) ∧
    CompressorOptions.FromString "brotli,zstd" =
      Except.ok { compression_type := CompressionType.kZstd,
                  compression_level := CompressorOptions.kDefaultZstd,
                  window_log := none } ∧
    CompressorOptions.FromString "zstd:5,window_log:auto" =
      Except.ok { compression_type := CompressionType.kZstd,
                  compression_level := 5, window_log := none } := by
  refine ⟨fun text => rfl, fun o l => rfl, fun o r s l hs hr => ?_, rfl, rfl⟩
  simp only [applyOptions]
  rw [if_neg hs, hr]

/-- Witness for C1: the non-empty segment case of the left-to-right rule at
a concrete input: applying `"brotli"` first is the same as continuing from
the Brotli-default value. -/
theorem fromString_applies_segments_in_order_witness :
    applyOptions {} ["brotli", "zstd"] =
      applyOptions { compression_type := CompressionType.kBrotli,
                     compression_level := 6, window_log := none } ["zstd"] :=
  fromString_applies_segments_in_order.2.2.1 {}
    { compression_type := CompressionType.kBrotli,
      compression_level := 6, window_log := none }
    "brotli" ["zstd"] (by decide) rfl

/-- Claim C4: for every option text conforming to the grammar `FromString`
returns an ok result, and for every malformed text it returns a recoverable
error whose message carries the offending segment verbatim (`errMsg s` is
the fixed text followed by `s`); the model is a total function, so no input
terminates the process. -/
theorem fromString_error_handling (text : String) :
    (validOptionsText text = true →
      ∃ r, CompressorOptions.FromString text = Except.ok r) ∧
    (validOptionsText text = false →
      ∃ s, s ∈ optionSegments text ∧ s ≠ "" ∧ validOption s = false ∧
        CompressorOptions.FromString text = Except.error (errMsg s)) := by
  constructor
  · intro h
    unfold validOptionsText at h
    rw [List.all_eq_true] at h
    show ∃ r, applyOptions {} (optionSegments text) = Except.ok r
    apply applyOptions_ok_of_valid
    intro s hs
    have hp := h s hs
    simp only [Bool.or_eq_true, beq_iff_eq] at hp
    exact hp
  · intro h
    unfold validOptionsText at h
    rw [List.all_eq_false] at h
    obtain ⟨s, hs, hp⟩ := h
    simp only [Bool.or_eq_true, beq_iff_eq, not_or] at hp
    obtain ⟨hne, hval⟩ := hp
    have hval' : validOption s = false := by
      cases hb : validOption s with
      | true => exact absurd hb hval
      | false => rfl
    show ∃ s, s ∈ optionSegments text ∧ s ≠ "" ∧ validOption s = false ∧
      applyOptions {} (optionSegments text) = Except.error (errMsg s)
    exact applyOptions_error_of_invalid _ ⟨s, hs, hne, hval'⟩ {}

/-- Witness for C4: a conforming text parses, and `"brotli:99"` (level out
of the Brotli bound) is rejected with an error naming the segment. -/
theorem fromString_error_handling_witness :
    (∃ r, CompressorOptions.FromString "zstd:5" = Except.ok r) ∧
    (∃ s, s ∈ optionSegments "brotli:99" ∧ s ≠ "" ∧ validOption s = false ∧
      CompressorOptions.FromString "brotli:99" = Except.error (errMsg s)) :=
  ⟨(fromString_error_handling "zstd:5").1 (by decide),
   (fromString_error_handling "brotli:99").2 (by decide)⟩

/-- Claim C5: a default-constructed `CompressorOptions` is Brotli at the
Brotli default level 6 with window log unset, and parsing the empty string
succeeds and leaves exactly this state, the comma-split of `""` being a
single empty segment contributing no mutation. -/
theorem default_options_and_empty_string :
    ({} : CompressorOptions).compression_type = CompressionType.kBrotli ∧
    ({} : CompressorOptions).compression_level =
      CompressorOptions.kDefaultBrotli ∧
    CompressorOptions.kDefaultBrotli = 6 ∧
    ({} : CompressorOptions).window_log = none ∧
    optionSegments "" = [""] ∧
    (optionSegments "").all (fun s => s == "") = true ∧
    CompressorOptions.FromString "" = Except.ok {} :=
  ⟨rfl, rfl, rfl, rfl, rfl, rfl, rfl⟩

/-- Claim C6: `set_brotli` requires its level in `[0, 11]` and `set_zstd` in
`[-131072, 22]`; within the bound the assertion does not fire and the setter
stores the algorithm and the given level, while any level outside the bound
is a fatal precondition failure (modelled as `none`). -/
theorem set_brotli_set_zstd_bounds (o : CompressorOptions) (level : Int) :
    CompressorOptions.kMinBrotli = 0 ∧ CompressorOptions.kMaxBrotli = 11 ∧
    CompressorOptions.kMinZstd = -131072 ∧
    CompressorOptions.kMaxZstd = 22 ∧
    (CompressorOptions.kMinBrotli ≤ level ∧
        level ≤ CompressorOptions.kMaxBrotli →
      o.set_brotli level =
        some { o with compression_type := CompressionType.kBrotli,
                      compression_level := level }) ∧
    (¬(CompressorOptions.kMinBrotli ≤ level ∧
        level ≤ CompressorOptions.kMaxBrotli) →
      o.set_brotli level = none) ∧
    (CompressorOptions.kMinZstd ≤ level ∧
        level ≤ CompressorOptions.kMaxZstd →
      o.set_zstd level =
        some { o with compression_type := CompressionType.kZstd,
                      compression_level := level }) ∧
    (¬(CompressorOptions.kMinZstd ≤ level ∧
        level ≤ CompressorOptions.kMaxZstd) →
      o.set_zstd level = none) := by
  refine ⟨rfl, rfl, rfl, rfl, fun h => ?_, fun h => ?_, fun h => ?_,
    fun h => ?_⟩
  · unfold CompressorOptions.set_brotli
    rw [if_pos h]
  · unfold CompressorOptions.set_brotli
    rw [if_neg h]
  · unfold CompressorOptions.set_zstd
    rw [if_pos h]
  · unfold CompressorOptions.set_zstd
    rw [if_neg h]

/-- Witness for C6: both setters at the edges of their bounds and just
outside them. -/
theorem set_brotli_set_zstd_bounds_witness :
    CompressorOptions.set_brotli {} 11 =
      some { compression_type := CompressionType.kBrotli,
             compression_level := 11, window_log := none } ∧
    CompressorOptions.set_brotli {} 12 = none ∧
    CompressorOptions.set_zstd {} (-131072) =
      some { compression_type := CompressionType.kZstd,
             compression_level := -131072, window_log := none } ∧
    CompressorOptions.set_zstd {} 23 = none :=
  ⟨(set_brotli_set_zstd_bounds {} 11).2.2.2.2.1 (by decide),
   (set_brotli_set_zstd_bounds {} 12).2.2.2.2.2.1 (by decide),
   (set_brotli_set_zstd_bounds {} (-131072)).2.2.2.2.2.2.1 (by decide),
   (set_brotli_set_zstd_bounds {} 23).2.2.2.2.2.2.2 (by decide)⟩

/-- Claim C7, counterexample: `set_window_log` with a present in-range value
succeeds on a None-configured and on a Snappy-configured value — it stores
the window log instead of failing, so no fatal precondition failure happens
at the setter boundary. -/
theorem set_window_log_on_uncompressed_not_fatal :
    (CompressorOptions.set_uncompressed {}).compression_type =
      CompressionType.kNone ∧
    CompressorOptions.set_window_log (CompressorOptions.set_uncompressed {})
        (some 15) =
      some { compression_type := CompressionType.kNone,
             compression_level := 0, window_log := some 15 } ∧
    (CompressorOptions.set_snappy {}).compression_type =
      CompressionType.kSnappy ∧
    CompressorOptions.set_window_log (CompressorOptions.set_snappy {})
        (some 15) =
      some { compression_type := CompressionType.kSnappy,
             compression_level := 0, window_log := some 15 } :=
  ⟨rfl, rfl, rfl, rfl⟩

/-- Claim C7 as amended: `set_window_log` checks only that a present value
lies in `[kMinWindowLog, kMaxWindowLog]`; the algorithm field plays no part,
so a present in-range value is stored whatever the algorithm is (the
None/Snappy restriction is documented on `window_log` but not enforced at
the setter boundary). -/
theorem set_window_log_checks_only_range (o : CompressorOptions) (w : Int) :
    (CompressorOptions.kMinWindowLog ≤ w ∧
        w ≤ CompressorOptions.kMaxWindowLog →
      o.set_window_log (some w) = some { o with window_log := some w }) ∧
    (¬(CompressorOptions.kMinWindowLog ≤ w ∧
        w ≤ CompressorOptions.kMaxWindowLog) →
      o.set_window_log (some w) = none) ∧
    o.set_window_log none = some { o with window_log := none } := by
  refine ⟨fun h => ?_, fun h => ?_, rfl⟩
  · simp only [CompressorOptions.set_window_log]
    rw [if_pos h]
  · simp only [CompressorOptions.set_window_log]
    rw [if_neg h]

/-- Witness for the amended C7: an in-range window log is stored even on a
Snappy-configured value, and an out-of-range one is a fatal failure. -/
theorem set_window_log_checks_only_range_witness :
    CompressorOptions.set_window_log (CompressorOptions.set_snappy {})
        (some 31) =
      some { compression_type := CompressionType.kSnappy,
             compression_level := 0, window_log := some 31 } ∧
    CompressorOptions.set_window_log {} (some 9) = none :=
  ⟨(set_window_log_checks_only_range (CompressorOptions.set_snappy {}) 31).1
      (by decide),
   (set_window_log_checks_only_range {} 9).2.1 (by decide)⟩

/-- Claim C8: `brotli_window_log` is defined only under the precondition
`compression_type = kBrotli` (it is a precondition failure otherwise, on
every value); under it, a configured window log is returned as is and an
unset one becomes the fixed backend default 22. -/
theorem brotli_window_log_spec (o : CompressorOptions) :
    kBrotliDefaultWindowLog = 22 ∧
    (o.compression_type = CompressionType.kBrotli → o.window_log = none →
      o.brotli_window_log = some kBrotliDefaultWindowLog) ∧
    (∀ w : Int, o.compression_type = CompressionType.kBrotli →
      o.window_log = some w → o.brotli_window_log = some w) ∧
    (o.compression_type ≠ CompressionType.kBrotli →
      o.brotli_window_log = none) := by
  refine ⟨rfl, fun h1 h2 => ?_, fun w h1 h2 => ?_, fun h => ?_⟩
  · simp [CompressorOptions.brotli_window_log, h1, h2]
  · simp [CompressorOptions.brotli_window_log, h1, h2]
  · simp [CompressorOptions.brotli_window_log, h]

/-- Witness for C8: the default value yields 22, an explicit window log 15
yields 15, and a Zstd-configured value is a precondition failure. -/
theorem brotli_window_log_spec_witness :
    CompressorOptions.brotli_window_log {} = some 22 ∧
    CompressorOptions.brotli_window_log
        { window_log := some 15 } = some 15 ∧
    CompressorOptions.brotli_window_log
        { compression_type := CompressionType.kZstd } = none :=
  ⟨(brotli_window_log_spec {}).2.1 rfl rfl,
   (brotli_window_log_spec { window_log := some 15 }).2.2.1 15 rfl rfl,
   (brotli_window_log_spec
      { compression_type := CompressionType.kZstd }).2.2.2 (by decide)⟩

/-- Claim C9: `zstd_window_log` is defined only under the precondition
`compression_type = kZstd` (it is a precondition failure otherwise, on
every value); under it, the stored window log is returned verbatim: an
explicit value unchanged, and unset as unset (the auto-derive signal). -/
theorem zstd_window_log_spec (o : CompressorOptions) :
    (o.compression_type = CompressionType.kZstd →
      o.zstd_window_log = some o.window_log) ∧
    (∀ w : Int, o.compression_type = CompressionType.kZstd →
      o.window_log = some w → o.zstd_window_log = some (some w)) ∧
    (o.compression_type = CompressionType.kZstd → o.window_log = none →
      o.zstd_window_log = some none) ∧
    (o.compression_type ≠ CompressionType.kZstd →
      o.zstd_window_log = none) := by
  refine ⟨fun h => ?_, fun w h1 h2 => ?_, fun h1 h2 => ?_, fun h => ?_⟩ <;>
    simp [CompressorOptions.zstd_window_log, *]

/-- Witness for C9: unset comes back as the auto-derive signal, 17 comes
back as 17, and the Brotli-configured default value is a precondition
failure. -/
theorem zstd_window_log_spec_witness :
    CompressorOptions.zstd_window_log
        { compression_type := CompressionType.kZstd } = some none ∧
    CompressorOptions.zstd_window_log
        { compression_type := CompressionType.kZstd,
          window_log := some 17 } = some (some 17) ∧
    CompressorOptions.zstd_window_log {} = none :=
  ⟨(zstd_window_log_spec
      { compression_type := CompressionType.kZstd }).2.2.1 rfl rfl,
   (zstd_window_log_spec
      { compression_type := CompressionType.kZstd,
        window_log := some 17 }).2.1 17 rfl rfl,
   (zstd_window_log_spec {}).2.2.2 (by decide)⟩

/-- Claim C10: each algorithm setter writes only the compression type and
level and leaves the window log unchanged, and `set_window_log` writes only
the window log and leaves the compression type and level unchanged. -/
theorem setters_frame_conditions (o r : CompressorOptions) (level : Int)
    (w : Option Int) :
    ((CompressorOptions.set_uncompressed o).window_log = o.window_log) ∧
    ((CompressorOptions.set_snappy o).window_log = o.window_log) ∧
    (o.set_brotli level = some r → r.window_log = o.window_log) ∧
    (o.set_zstd level = some r → r.window_log = o.window_log) ∧
    (o.set_window_log w = some r →
      r.compression_type = o.compression_type ∧
      r.compression_level = o.compression_level) := by
  refine ⟨rfl, rfl, fun h => ?_, fun h => ?_, fun h => ?_⟩
  · unfold CompressorOptions.set_brotli at h
    split at h
    · injection h with h
      subst h
      rfl
    · exact Option.noConfusion h
  · unfold CompressorOptions.set_zstd at h
    split at h
    · injection h with h
      subst h
      rfl
    · exact Option.noConfusion h
  · cases w with
    | none =>
      simp only [CompressorOptions.set_window_log] at h
      injection h with h
      subst h
      exact ⟨rfl, rfl⟩
    | some v =>
      simp only [CompressorOptions.set_window_log] at h
      split at h
      · injection h with h
        subst h
        exact ⟨rfl, rfl⟩
      · exact Option.noConfusion h

/-- Witness for C10: each hypothesis-bearing frame condition exercised at a
concrete input with window log 12 (algorithm setters) or a fresh window log
15 (`set_window_log`). -/
theorem setters_frame_conditions_witness :
    (({ compression_type := CompressionType.kBrotli, compression_level := 7,
        window_log := some 12 } : CompressorOptions).window_log =
      ({ window_log := some 12 } : CompressorOptions).window_log) ∧
    (({ compression_type := CompressionType.kZstd, compression_level := -5,
        window_log := some 12 } : CompressorOptions).window_log =
      ({ window_log := some 12 } : CompressorOptions).window_log) ∧
    (({ window_log := some 15 } : CompressorOptions).compression_type =
      ({ window_log := some 12 } : CompressorOptions).compression_type ∧
     ({ window_log := some 15 } : CompressorOptions).compression_level =
      ({ window_log := some 12 } : CompressorOptions).compression_level) :=
  ⟨(setters_frame_conditions { window_log := some 12 }
      { compression_type := CompressionType.kBrotli, compression_level := 7,
        window_log := some 12 } 7 none).2.2.1 (by decide),
   (setters_frame_conditions { window_log := some 12 }
      { compression_type := CompressionType.kZstd, compression_level := -5,
        window_log := some 12 } (-5) none).2.2.2.1 (by decide),
   (setters_frame_conditions { window_log := some 12 }
      { window_log := some 15 } 0 (some 15)).2.2.2.2 (by decide)⟩
